import Mathlib

/-!
Formal model of the gateway_api_monitor schema diff and monitoring engine.

The definitions below are a shallow embedding of the Python sources:

* `compare_property`, `compare_schemas`, `determine_severity` embed
  `app/services/diff_engine.py` (`DiffEngine._compare_property`,
  `DiffEngine.compare_schemas`, `DiffEngine._determine_severity`).
* `categorize_change` embeds `app/services/ai_analyzer.py`
  (`AIAnalyzer.categorize_change`).
* `monitor_tier`, `run_monitoring`, `compare_tiers`, `get_latest_snapshot`
  embed `app/services/monitoring_service.py` (`MonitoringService`).

Modelling conventions:

* A Python schema document is a JSON object with a `properties` mapping and a
  `required` list; `dict.get` defaults (missing `properties` ↦ empty dict,
  missing `required` ↦ empty list, missing `type` ↦ `None`, missing
  `description` ↦ `""`, missing `enum` ↦ `[]`) are represented by the `Option`
  / empty-list fields of `Schema` and `PropDef`.  A Python dict is an
  insertion-ordered association list with pairwise-distinct keys; we use
  `List (String × PropDef)` and, where a proof needs key uniqueness, an
  explicit `Nodup` hypothesis on the key list.
* Python `set` iteration order is unspecified; wherever the code iterates a
  set difference (`new_required - old_required` etc.) we model the iteration
  in first-occurrence order of the underlying list (`List.dedup`).  Only the
  relative order chosen matters for the theorems below, never the identity of
  the elements, which is order-independent.
* Effects of the orchestrator (the external fetch, the best-effort
  summarizer, and database commits that may fail) are passed explicitly: the
  fetch and summarizer as an `Env` of oracle functions, commit outcomes as a
  `List Bool` consumed one entry per `Session.commit()` call (an exhausted
  list means every further commit succeeds).  A failed commit raises, i.e.
  returns `Except.error`, and discards the pending (uncommitted) rows, as
  SQLAlchemy does; previously committed rows stay durable.
-/

/-- Field definition of one property of a schema document: the `type`,
`description` and `enum` metadata read by `DiffEngine._compare_property` via
`dict.get`. -/
structure PropDef where
  type : Option String
  description : Option String
  enum : List String
deriving DecidableEq, Repr

/-- Schema document: the `properties` mapping (insertion-ordered, keys
pairwise distinct in real documents) and the `required` name list. -/
structure Schema where
  properties : List (String × PropDef)
  required : List String
deriving DecidableEq, Repr

/-- JSON-ish value stored in the `old_value` / `new_value` slots of a change
record: the diff engine puts `None`, booleans, strings, enum lists and whole
property definitions there. -/
inductive JValue where
  | null : JValue
  | bool : Bool → JValue
  | str : String → JValue
  | strList : List String → JValue
  | propDef : PropDef → JValue
deriving DecidableEq, Repr

/-- Conversion of a Python `dict.get("type")` result (string or `None`) into
a stored value. -/
def optStrVal : Option String → JValue
  | none => JValue.null
  | some s => JValue.str s

/-- Change record as produced by `DiffEngine.compare_schemas`: a dict with
`change_type`, `field_path`, `old_value`, `new_value` and `severity`. -/
structure Change where
  change_type : String
  field_path : String
  old_value : JValue
  new_value : JValue
  severity : String
deriving DecidableEq, Repr

/-- Embedding of `DiffEngine._determine_severity`. -/
def determine_severity (change_type : String) (_prop_def : PropDef) : String :=
  if change_type = "added" then "low"
  else if change_type = "removed" then "high"
  else "medium"

/-- Embedding of Python dict indexing / `dict.get` on a dict modelled as an
ordered association list: the value of the first (in real dicts, the unique)
binding of the key. -/
def dictGet {α : Type} (n : String) : List (String × α) → Option α
  | [] => none
  | p :: rest => if n = p.1 then some p.2 else dictGet n rest

/-- Embedding of `DiffEngine._compare_property`: type change, then
description change, then enum changes (additions and removals are tested on
the value sets, both may fire). -/
def compare_property (prop_name : String) (old_prop new_prop : PropDef) : List Change :=
  let typeChanges : List Change :=
    if old_prop.type ≠ new_prop.type then
      [{ change_type := "type_changed",
         field_path := "properties." ++ prop_name ++ ".type",
         old_value := optStrVal old_prop.type,
         new_value := optStrVal new_prop.type,
         severity := "high" }]
    else []
  let old_desc := old_prop.description.getD ""
  let new_desc := new_prop.description.getD ""
  let descChanges : List Change :=
    if old_desc ≠ new_desc then
      [{ change_type := "description_changed",
         field_path := "properties." ++ prop_name ++ ".description",
         old_value := JValue.str old_desc,
         new_value := JValue.str new_desc,
         severity := "info" }]
    else []
  let old_enum := old_prop.enum
  let new_enum := new_prop.enum
  let enumChanges : List Change :=
    if old_enum ≠ new_enum then
      let added_values := new_enum.filter (fun v => decide (v ∉ old_enum))
      let removed_values := old_enum.filter (fun v => decide (v ∉ new_enum))
      (if added_values ≠ [] then
        [{ change_type := "enum_values_added",
           field_path := "properties." ++ prop_name ++ ".enum",
           old_value := JValue.strList old_enum,
           new_value := JValue.strList new_enum,
           severity := "low" }]
      else []) ++
      (if removed_values ≠ [] then
        [{ change_type := "enum_values_removed",
           field_path := "properties." ++ prop_name ++ ".enum",
           old_value := JValue.strList old_enum,
           new_value := JValue.strList new_enum,
           severity := "medium" }]
      else [])
    else []
  typeChanges ++ descChanges ++ enumChanges

/-- Embedding of `DiffEngine.compare_schemas`: new properties, removed
properties, per-field modifications over the old property set, then
required-set changes (newly required, then no longer required). -/
def compare_schemas (old_schema new_schema : Schema) : List Change :=
  let old_props := old_schema.properties
  let new_props := new_schema.properties
  let added : List Change :=
    (new_props.filter (fun p => decide (p.1 ∉ old_props.map Prod.fst))).map
      (fun p =>
        { change_type := "property_added",
          field_path := "properties." ++ p.1,
          old_value := JValue.null,
          new_value := JValue.propDef p.2,
          severity := determine_severity "added" p.2 })
  let removed : List Change :=
    (old_props.filter (fun p => decide (p.1 ∉ new_props.map Prod.fst))).map
      (fun p =>
        { change_type := "property_removed",
          field_path := "properties." ++ p.1,
          old_value := JValue.propDef p.2,
          new_value := JValue.null,
          severity := "high" })
  let modified : List Change :=
    (old_props.map (fun p =>
      match dictGet p.1 new_props with
      | some np => compare_property p.1 p.2 np
      | none => [])).flatten
  let old_required := old_schema.required
  let new_required := new_schema.required
  let nowRequired : List Change :=
    (new_required.dedup.filter (fun f => decide (f ∉ old_required))).map
      (fun f =>
        { change_type := "field_now_required",
          field_path := "required." ++ f,
          old_value := JValue.bool false,
          new_value := JValue.bool true,
          severity := "high" })
  let noLongerRequired : List Change :=
    (old_required.dedup.filter (fun f => decide (f ∉ new_required))).map
      (fun f =>
        { change_type := "field_no_longer_required",
          field_path := "required." ++ f,
          old_value := JValue.bool true,
          new_value := JValue.bool false,
          severity := "low" })
  added ++ removed ++ modified ++ nowRequired ++ noLongerRequired

/-- Embedding of the category lookup table of `AIAnalyzer.categorize_change`. -/
def categories : List (String × String) :=
  [("property_added", "enhancement"),
   ("property_removed", "breaking_change"),
   ("type_changed", "breaking_change"),
   ("field_now_required", "breaking_change"),
   ("field_no_longer_required", "enhancement"),
   ("enum_values_added", "enhancement"),
   ("enum_values_removed", "breaking_change"),
   ("description_changed", "documentation")]

/-- Embedding of `AIAnalyzer.categorize_change`: dictionary lookup on the
change type with default `"other"`. -/
def categorize_change (change : Change) : String :=
  (dictGet change.change_type categories).getD "other"

/-- Stated from the spec for comparison with `categorize_change`: the
category table of §4.2 written as the claim lists it, with `other` for every
tag outside the table. -/
def specCategoryOf (t : String) : String :=
  if t = "property_added" then "enhancement"
  else if t = "property_removed" then "breaking_change"
  else if t = "type_changed" then "breaking_change"
  else if t = "field_now_required" then "breaking_change"
  else if t = "field_no_longer_required" then "enhancement"
  else if t = "enum_values_added" then "enhancement"
  else if t = "enum_values_removed" then "breaking_change"
  else if t = "description_changed" then "documentation"
  else "other"

/-- Additions segment of `compare_schemas`: one `property_added` change per
property of the new document absent from the old one, in new-document
iteration order. -/
def addedChanges (old_schema new_schema : Schema) : List Change :=
  (new_schema.properties.filter
    (fun p => decide (p.1 ∉ old_schema.properties.map Prod.fst))).map
    (fun p =>
      { change_type := "property_added",
        field_path := "properties." ++ p.1,
        old_value := JValue.null,
        new_value := JValue.propDef p.2,
        severity := determine_severity "added" p.2 })

/-- Removals segment of `compare_schemas`: one `property_removed` change per
property of the old document absent from the new one. -/
def removedChanges (old_schema new_schema : Schema) : List Change :=
  (old_schema.properties.filter
    (fun p => decide (p.1 ∉ new_schema.properties.map Prod.fst))).map
    (fun p =>
      { change_type := "property_removed",
        field_path := "properties." ++ p.1,
        old_value := JValue.propDef p.2,
        new_value := JValue.null,
        severity := "high" })

/-- Modifications segment of `compare_schemas`: the per-field changes of the
properties present in both documents, in old-document iteration order. -/
def modifiedChanges (old_schema new_schema : Schema) : List Change :=
  (old_schema.properties.map (fun p =>
    match dictGet p.1 new_schema.properties with
    | some np => compare_property p.1 p.2 np
    | none => [])).flatten

/-- Newly-required segment of `compare_schemas`. -/
def nowRequiredChanges (old_schema new_schema : Schema) : List Change :=
  (new_schema.required.dedup.filter
    (fun f => decide (f ∉ old_schema.required))).map
    (fun f =>
      { change_type := "field_now_required",
        field_path := "required." ++ f,
        old_value := JValue.bool false,
        new_value := JValue.bool true,
        severity := "high" })

/-- No-longer-required segment of `compare_schemas`. -/
def noLongerRequiredChanges (old_schema new_schema : Schema) : List Change :=
  (old_schema.required.dedup.filter
    (fun f => decide (f ∉ new_schema.required))).map
    (fun f =>
      { change_type := "field_no_longer_required",
        field_path := "required." ++ f,
        old_value := JValue.bool true,
        new_value := JValue.bool false,
        severity := "low" })

/-- Names of the `property_added` changes of a change list, read back from
the `properties.<name>` field paths (11 characters of prefix). -/
def addedPropNames (cs : List Change) : List String :=
  (cs.filter (fun c => decide (c.change_type = "property_added"))).map
    (fun c => c.field_path.drop 11)

/-- Names of the `property_removed` changes of a change list. -/
def removedPropNames (cs : List Change) : List String :=
  (cs.filter (fun c => decide (c.change_type = "property_removed"))).map
    (fun c => c.field_path.drop 11)

/-- Names of the `field_now_required` changes of a change list, read back
from the `required.<name>` field paths (9 characters of prefix). -/
def nowRequiredNames (cs : List Change) : List String :=
  (cs.filter (fun c => decide (c.change_type = "field_now_required"))).map
    (fun c => c.field_path.drop 9)

/-- Names of the `field_no_longer_required` changes of a change list. -/
def noLongerRequiredNames (cs : List Change) : List String :=
  (cs.filter (fun c => decide (c.change_type = "field_no_longer_required"))).map
    (fun c => c.field_path.drop 9)

/-- Persisted snapshot row (`app/models/models.py`, table `snapshots`): the
lineage key fields, the captured document and its source URL.  Rows are kept
in insertion order; `created_at` timestamps are nondecreasing in that order,
so "maximum `created_at`, ties broken by insertion order" is the last
matching row. -/
structure SnapshotRec where
  id : Nat
  gateway : String
  endpoint_path : String
  spec_type : String
  spec_url : String
  schema_data : Schema
deriving DecidableEq, Repr

/-- Persisted change row (`app/models/models.py`, table `changes`). -/
structure ChangeRec where
  snapshot_id : Nat
  change_type : String
  field_path : String
  old_value : JValue
  new_value : JValue
  severity : String
  change_category : String
  change_maturity : Option String
  ai_summary : Option String
deriving DecidableEq, Repr

/-- Durable database state: committed snapshot and change rows in insertion
order, plus the next fresh snapshot id. -/
structure DB where
  snapshots : List SnapshotRec
  changes : List ChangeRec
  nextId : Nat
deriving DecidableEq, Repr

/-- Embedding of `MonitoringService._get_latest_snapshot`: filter on the
fixed gateway, endpoint and the tier, order by `created_at` descending, take
the first — i.e. the last matching row in insertion order. -/
def get_latest_snapshot (db : DB) (spec_type : String) : Option SnapshotRec :=
  (db.snapshots.filter (fun s =>
    decide (s.gateway = "stripe" ∧ s.endpoint_path = "/v1/payment_intents" ∧
      s.spec_type = spec_type))).getLast?

/-- Modelled from the spec: the multi-tier crawler constant `SPEC_URLS` is
referenced by `MonitoringService._monitor_tier` but the multi-tier revision
of `app/services/stripe_crawler.py` is absent from the sources (the file
present is the superseded single-URL revision).  Per the tier glossary
(stable ↦ spec3.json, preview ↦ spec3.sdk.json, beta ↦ spec3.beta.sdk.json)
each tier maps to a fixed URL; no theorem below depends on the exact
strings. -/
def SPEC_URLS (spec_type : String) : String :=
  if spec_type = "stable" then
    "https://raw.githubusercontent.com/stripe/openapi/master/openapi/spec3.json"
  else if spec_type = "preview" then
    "https://raw.githubusercontent.com/stripe/openapi/master/openapi/spec3.sdk.json"
  else
    "https://raw.githubusercontent.com/stripe/openapi/master/openapi/spec3.beta.sdk.json"

/-- External collaborators of the orchestrator.  `fetch` is modelled from
the spec's Document Fetch contract (`fetch(tier)` returns a document or
fails with a fetch error — the multi-tier crawler is missing from the
sources); `summarize` models `AIAnalyzer.analyze_change`, which catches its
own exceptions and returns an optional summary, never raising. -/
structure Env where
  fetch : String → Except String Schema
  summarize : Change → Option String

/-- Error raised out of a monitoring cycle: a failed fetch or a failed
database commit. -/
inductive MErr where
  | fetchFailed : String → String → MErr
  | commitFailed : MErr
deriving DecidableEq, Repr

/-- Per-tier cycle result dict of `MonitoringService._monitor_tier`
(`spec_type`, `snapshot_id`, `changes_count`, `changes`). -/
structure TierResult where
  spec_type : String
  snapshot_id : Nat
  changes_count : Nat
  changes : List Change
deriving DecidableEq, Repr

/-- Outcome of one `Session.commit()` call, consumed from the oracle list;
an exhausted oracle means the commit succeeds. -/
def commitStep (oracle : List Bool) : Bool × List Bool :=
  (oracle.headD true, oracle.tail)

/-- Change row built by `MonitoringService._monitor_tier` for one diff entry:
category from `categorize_change`, maturity `stable_change` only for the
stable tier, best-effort summary from the external summarizer. -/
def mkChangeRec (env : Env) (spec_type : String) (snapId : Nat) (cd : Change) : ChangeRec :=
  { snapshot_id := snapId,
    change_type := cd.change_type,
    field_path := cd.field_path,
    old_value := cd.old_value,
    new_value := cd.new_value,
    severity := cd.severity,
    change_category := categorize_change cd,
    change_maturity := if spec_type = "stable" then some "stable_change" else none,
    ai_summary := env.summarize cd }

/-- Embedding of `MonitoringService._monitor_tier`.  Steps, in source order:
fetch the current document (a failure propagates — there is no handler);
read the latest prior snapshot for the tier; add and commit the new snapshot
(first commit); if a prior snapshot exists, diff, build one change row per
diff entry (category from `categorize_change`, maturity `stable_change` only
for the stable tier, best-effort summary) and commit them (second commit).
The returned triple is (result or raised error, durable database, remaining
commit oracle). -/
def monitor_tier (env : Env) (spec_type : String) (db : DB) (oracle : List Bool) :
    Except MErr TierResult × DB × List Bool :=
  match env.fetch spec_type with
  | Except.error e => (Except.error (MErr.fetchFailed spec_type e), db, oracle)
  | Except.ok current_schema =>
    let previous_snapshot := get_latest_snapshot db spec_type
    let new_snapshot : SnapshotRec :=
      { id := db.nextId, gateway := "stripe",
        endpoint_path := "/v1/payment_intents", spec_type := spec_type,
        spec_url := SPEC_URLS spec_type, schema_data := current_schema }
    let step1 := commitStep oracle
    if step1.1 = false then (Except.error MErr.commitFailed, db, step1.2)
    else
      let db1 : DB :=
        { db with snapshots := db.snapshots ++ [new_snapshot], nextId := db.nextId + 1 }
      match previous_snapshot with
      | none =>
        (Except.ok { spec_type := spec_type, snapshot_id := new_snapshot.id,
                     changes_count := 0, changes := [] }, db1, step1.2)
      | some prev =>
        let changes := compare_schemas prev.schema_data current_schema
        let change_records : List ChangeRec :=
          changes.map (mkChangeRec env spec_type new_snapshot.id)
        let step2 := commitStep step1.2
        if step2.1 = false then (Except.error MErr.commitFailed, db1, step2.2)
        else
          (Except.ok { spec_type := spec_type, snapshot_id := new_snapshot.id,
                       changes_count := changes.length, changes := changes },
           { db1 with changes := db1.changes ++ change_records }, step2.2)

/-- Entry of the `changes` list of a tier-comparison result dict. -/
structure AnnotatedChange where
  change : Change
  maturity : String
  ai_summary : Option String
  timeline : String
deriving DecidableEq, Repr

/-- Result of `MonitoringService._compare_tiers`: either the structured
missing-snapshots dict or the comparison dict (`comparison`,
`upcoming_features_count`, `changes`). -/
inductive TierCompareResult where
  | insufficientData : String → TierCompareResult
  | ok : String → Nat → List AnnotatedChange → TierCompareResult
deriving DecidableEq, Repr

/-- Embedding of `MonitoringService._compare_tiers`: resolve the latest
snapshot of each tier; if either is missing return the error dict; otherwise
diff with the target document as `old` and the source document as `new` and
annotate every change with maturity and timeline. -/
def compare_tiers (env : Env) (source_tier target_tier : String) (db : DB) :
    TierCompareResult :=
  let source_snapshot := get_latest_snapshot db source_tier
  let target_snapshot := get_latest_snapshot db target_tier
  match source_snapshot, target_snapshot with
  | some ss, some ts =>
    let changes := compare_schemas ts.schema_data ss.schema_data
    let maturity := if source_tier = "preview" then "new_preview" else "new_beta"
    let analyzed_changes : List AnnotatedChange := changes.map (fun cd =>
      { change := cd, maturity := maturity, ai_summary := env.summarize cd,
        timeline := if source_tier = "preview" then "4-10 weeks" else "Unknown" })
    TierCompareResult.ok (source_tier ++ "_vs_" ++ target_tier)
      analyzed_changes.length analyzed_changes
  | _, _ => TierCompareResult.insufficientData "Missing snapshots for comparison"

/-- Result dict of `MonitoringService.run_monitoring`. -/
structure RunResult where
  stable : TierResult
  preview : TierResult
  beta : TierResult
  preview_vs_stable : TierCompareResult
  beta_vs_stable : TierCompareResult
deriving DecidableEq, Repr

/-- Embedding of `MonitoringService.run_monitoring`: the three tier cycles
run in the fixed order stable, preview, beta; an error raised by any cycle
propagates immediately (there is no per-tier handler), aborting the rest of
the run; then the two tier comparisons are computed. -/
def run_monitoring (env : Env) (db : DB) (oracle : List Bool) :
    Except MErr RunResult × DB × List Bool :=
  match monitor_tier env "stable" db oracle with
  | (Except.error e, db1, o1) => (Except.error e, db1, o1)
  | (Except.ok stableRes, db1, o1) =>
    match monitor_tier env "preview" db1 o1 with
    | (Except.error e, db2, o2) => (Except.error e, db2, o2)
    | (Except.ok previewRes, db2, o2) =>
      match monitor_tier env "beta" db2 o2 with
      | (Except.error e, db3, o3) => (Except.error e, db3, o3)
      | (Except.ok betaRes, db3, o3) =>
        let preview_vs_stable := compare_tiers env "preview" "stable" db3
        let beta_vs_stable := compare_tiers env "beta" "stable" db3
        (Except.ok { stable := stableRes, preview := previewRes, beta := betaRes,
                     preview_vs_stable := preview_vs_stable,
                     beta_vs_stable := beta_vs_stable }, db3, o3)

/-- Concrete field definition used by the concrete scenarios below. -/
def fieldInt : PropDef :=
  { type := some "integer", description := none, enum := [] }

/-- Concrete field definition used by the concrete scenarios below. -/
def fieldStr : PropDef :=
  { type := some "string", description := none, enum := [] }

/-- Concrete document with the single property `amount`. -/
def schemaA : Schema :=
  { properties := [("amount", fieldInt)], required := [] }

/-- Concrete document extending `schemaA` with a `customer` property. -/
def schemaB : Schema :=
  { properties := [("amount", fieldInt), ("customer", fieldStr)], required := [] }

/-- Concrete stable-tier snapshot holding `schemaA`. -/
def snapStable : SnapshotRec :=
  { id := 0, gateway := "stripe", endpoint_path := "/v1/payment_intents",
    spec_type := "stable", spec_url := SPEC_URLS "stable", schema_data := schemaA }

/-- Concrete beta-tier snapshot holding `schemaB`. -/
def snapBeta : SnapshotRec :=
  { id := 1, gateway := "stripe", endpoint_path := "/v1/payment_intents",
    spec_type := "beta", spec_url := SPEC_URLS "beta", schema_data := schemaB }

/-- Empty database. -/
def dbEmpty : DB := { snapshots := [], changes := [], nextId := 0 }

/-- Database holding only the stable snapshot. -/
def dbOne : DB := { snapshots := [snapStable], changes := [], nextId := 1 }

/-- Database holding a stable and a beta snapshot. -/
def dbTwo : DB := { snapshots := [snapStable, snapBeta], changes := [], nextId := 2 }

/-- Environment whose fetch is never consulted successfully and whose
summarizer always falls back to no summary. -/
def envPure : Env :=
  { fetch := fun _ => Except.error "unused", summarize := fun _ => none }

/-- Environment whose fetch always yields `schemaB`. -/
def envFetchB : Env :=
  { fetch := fun _ => Except.ok schemaB, summarize := fun _ => none }

/-- Environment where the stable-tier fetch fails and the other tiers fetch
successfully. -/
def envStableDown : Env :=
  { fetch := fun t => if t = "stable" then Except.error "boom" else Except.ok schemaA,
    summarize := fun _ => none }

/-- Environment where the preview-tier fetch fails and the other tiers
fetch successfully. -/
def envPreviewDown : Env :=
  { fetch := fun t => if t = "preview" then Except.error "boom" else Except.ok schemaA,
    summarize := fun _ => none }

/-- Concrete property definition with enum values in one order. -/
def pdEnumAB : PropDef :=
  { type := some "string", description := none, enum := ["a", "b"] }

/-- Concrete property definition with the same enum values in another
order. -/
def pdEnumBA : PropDef :=
  { type := some "string", description := none, enum := ["b", "a"] }

-- Diff-engine sanity checks against the concrete scenarios of the spec.

example :
    compare_schemas
      { properties := [("amount", { type := some "integer", description := none, enum := [] })],
        required := ["amount"] }
      { properties := [("amount", { type := some "string", description := none, enum := [] })],
        required := ["amount"] } =
    [{ change_type := "type_changed", field_path := "properties.amount.type",
       old_value := JValue.str "integer", new_value := JValue.str "string",
       severity := "high" }] := by decide

example :
    compare_schemas
      { properties := [("s", { type := some "string", description := none, enum := ["a", "b"] })],
        required := [] }
      { properties := [("s", { type := some "string", description := none, enum := ["a", "b", "c"] })],
        required := [] } =
    [{ change_type := "enum_values_added", field_path := "properties.s.enum",
       old_value := JValue.strList ["a", "b"], new_value := JValue.strList ["a", "b", "c"],
       severity := "low" }] := by decide

-- ======================================================================
-- Helper lemmas
-- ======================================================================

/-- Lookup in an association list with pairwise-distinct keys returns the
value of the unique binding, as Python dict indexing does. -/
theorem dictGet_eq_some_of_nodup {α : Type} {l : List (String × α)} {n : String} {v : α}
    (hnd : (l.map Prod.fst).Nodup) (hmem : (n, v) ∈ l) : dictGet n l = some v := by
  induction l with
  | nil => simp at hmem
  | cons p rest ih =>
    simp only [List.map_cons, List.nodup_cons] at hnd
    rcases List.mem_cons.mp hmem with h | h
    · rw [← h]
      simp [dictGet]
    · have hne : n ≠ p.1 := by
        intro he
        exact hnd.1 (he ▸ List.mem_map_of_mem Prod.fst h)
      simp [dictGet, hne, ih hnd.2 h]

/-- Comparing a property definition with itself yields no changes. -/
theorem compare_property_self (n : String) (v : PropDef) : compare_property n v v = [] := by
  simp [compare_property]

/-- Every change emitted by `compare_property` carries one of the four
modification change types. -/
theorem compare_property_change_type_mem (n : String) (a b : PropDef) (c : Change)
    (hc : c ∈ compare_property n a b) :
    c.change_type = "type_changed" ∨ c.change_type = "description_changed" ∨
      c.change_type = "enum_values_added" ∨ c.change_type = "enum_values_removed" := by
  simp only [compare_property, List.mem_append] at hc
  rcases hc with (hc | hc) | hc
  · split at hc <;> simp_all
  · split at hc <;> simp_all
  · split at hc
    · rcases List.mem_append.mp hc with hc | hc <;> split at hc <;> simp_all
    · simp_all

/-- Splitting of `compare_schemas` into its five ordered segments. -/
theorem compare_schemas_segments (old_schema new_schema : Schema) :
    compare_schemas old_schema new_schema =
      addedChanges old_schema new_schema ++ removedChanges old_schema new_schema ++
        modifiedChanges old_schema new_schema ++ nowRequiredChanges old_schema new_schema ++
        noLongerRequiredChanges old_schema new_schema := rfl

-- ======================================================================
-- C7, C8, C9, C10
-- ======================================================================

/-- C7: for every schema document `d` (missing `properties` / `required`
keys being the empty mapping / list), `compare_schemas d d` returns the empty
change list.  The `Nodup` hypothesis is the Python dict invariant that
property names are pairwise distinct. -/
theorem compare_schemas_self_empty (d : Schema)
    (h : (d.properties.map Prod.fst).Nodup) : compare_schemas d d = [] := by
  rw [compare_schemas]
  have hadd : d.properties.filter
      (fun p => decide (p.1 ∉ d.properties.map Prod.fst)) = [] := by
    rw [List.filter_eq_nil_iff]
    intro p hp
    simp [List.mem_map_of_mem Prod.fst hp]
  have hmod : ∀ p ∈ d.properties,
      (match dictGet p.1 d.properties with
        | some np => compare_property p.1 p.2 np
        | none => ([] : List Change)) = [] := by
    intro p hp
    rw [dictGet_eq_some_of_nodup h hp]
    exact compare_property_self p.1 p.2
  have hreq : d.required.dedup.filter (fun f => decide (f ∉ d.required)) = [] := by
    rw [List.filter_eq_nil_iff]
    intro f hf
    simp [List.mem_dedup.mp hf]
  simp only [hadd, hreq, List.map_nil, List.append_nil, List.nil_append]
  rw [List.flatten_eq_nil_iff.mpr]
  intro l hl
  rcases List.mem_map.mp hl with ⟨p, hp, hpl⟩
  rw [← hpl]
  exact hmod p hp

/-- Witness for C7 at a concrete document. -/
theorem compare_schemas_self_empty_witness :
    (schemaB.properties.map Prod.fst).Nodup ∧ compare_schemas schemaB schemaB = [] :=
  ⟨by decide, compare_schemas_self_empty schemaB (by decide)⟩

/-- C8: the category classification is a total function of the change type
agreeing with the spec table of §4.2, with `other` for every tag outside the
table. -/
theorem categorize_change_matches_spec (c : Change) :
    categorize_change c = specCategoryOf c.change_type := by
  rcases c with ⟨t, fp, ov, nv, sv⟩
  simp only [categorize_change, categories, dictGet, specCategoryOf]
  split_ifs <;> simp_all

/-- C9: the output of `compare_schemas` is the additions, then the removals,
then the per-field modifications in old-document iteration order, then the
newly-required and finally the no-longer-required changes; as a pure
function of its two arguments the output is stable and reproducible. -/
theorem compare_schemas_ordered_output (old_schema new_schema : Schema) :
    compare_schemas old_schema new_schema =
      addedChanges old_schema new_schema ++ removedChanges old_schema new_schema ++
        modifiedChanges old_schema new_schema ++ nowRequiredChanges old_schema new_schema ++
        noLongerRequiredChanges old_schema new_schema := rfl

/-- C10: when the old and new enum lists of a field present in both
documents contain the same value set, `_compare_property` emits no
`enum_values_added` and no `enum_values_removed` change, even when the lists
themselves differ. -/
theorem compare_property_enum_sets_eq (prop_name : String) (old_prop new_prop : PropDef)
    (h : old_prop.enum.toFinset = new_prop.enum.toFinset) :
    ∀ c ∈ compare_property prop_name old_prop new_prop,
      c.change_type ≠ "enum_values_added" ∧ c.change_type ≠ "enum_values_removed" := by
  intro c hc
  have hmem : ∀ v : String, v ∈ old_prop.enum ↔ v ∈ new_prop.enum := by
    intro v
    rw [← List.mem_toFinset, ← List.mem_toFinset, h]
  have hAnil : new_prop.enum.filter (fun v => decide (v ∉ old_prop.enum)) = [] := by
    rw [List.filter_eq_nil_iff]
    intro v hv
    simp [(hmem v).mpr hv]
  have hRnil : old_prop.enum.filter (fun v => decide (v ∉ new_prop.enum)) = [] := by
    rw [List.filter_eq_nil_iff]
    intro v hv
    simp [(hmem v).mp hv]
  simp only [compare_property, hAnil, hRnil, ne_eq, not_true_eq_false, if_false,
    List.append_nil, List.nil_append, ite_self] at hc
  rcases List.mem_append.mp hc with hc | hc <;> split at hc <;> simp_all

/-- Witness for C10: same enum value set in a different order. -/
theorem compare_property_enum_sets_eq_witness :
    pdEnumAB.enum.toFinset = pdEnumBA.enum.toFinset ∧
      ∀ c ∈ compare_property "status" pdEnumAB pdEnumBA,
        c.change_type ≠ "enum_values_added" ∧ c.change_type ≠ "enum_values_removed" :=
  ⟨by decide, compare_property_enum_sets_eq "status" pdEnumAB pdEnumBA (by decide)⟩

-- ======================================================================
-- C6: round-trip of structural changes
-- ======================================================================

/-- Dropping the length of the left part of an appended string yields the
right part. -/
theorem string_drop_length_append (a b : String) : (a ++ b).drop a.length = b := by
  apply String.ext
  rw [String.data_drop, String.data_append]
  have h : a.length = a.data.length := rfl
  rw [h, List.drop_left]

/-- Reading the property name back from a `properties.<name>` field path. -/
theorem drop_properties_path (s : String) : ("properties." ++ s).drop 11 = s := by
  have h := string_drop_length_append "properties." s
  rwa [show ("properties." : String).length = 11 from rfl] at h

/-- Reading the field name back from a `required.<name>` field path. -/
theorem drop_required_path (s : String) : ("required." ++ s).drop 9 = s := by
  have h := string_drop_length_append "required." s
  rwa [show ("required." : String).length = 9 from rfl] at h

/-- Every change of the additions segment is a `property_added` change. -/
theorem addedChanges_change_type (o n : Schema) (c : Change) (hc : c ∈ addedChanges o n) :
    c.change_type = "property_added" := by
  obtain ⟨p, hp, hpc⟩ := List.mem_map.mp hc
  rw [← hpc]

/-- Every change of the removals segment is a `property_removed` change. -/
theorem removedChanges_change_type (o n : Schema) (c : Change) (hc : c ∈ removedChanges o n) :
    c.change_type = "property_removed" := by
  obtain ⟨p, hp, hpc⟩ := List.mem_map.mp hc
  rw [← hpc]

/-- Every change of the modifications segment carries one of the four
modification change types. -/
theorem modifiedChanges_change_type (o n : Schema) (c : Change) (hc : c ∈ modifiedChanges o n) :
    c.change_type = "type_changed" ∨ c.change_type = "description_changed" ∨
      c.change_type = "enum_values_added" ∨ c.change_type = "enum_values_removed" := by
  obtain ⟨l, hl, hcl⟩ := List.mem_flatten.mp hc
  obtain ⟨p, hp, hpl⟩ := List.mem_map.mp hl
  rw [← hpl] at hcl
  rcases hdg : dictGet p.1 n.properties with _ | np
  · rw [hdg] at hcl
    simp at hcl
  · rw [hdg] at hcl
    exact compare_property_change_type_mem p.1 p.2 np c hcl

/-- Every change of the newly-required segment is a `field_now_required`
change. -/
theorem nowRequiredChanges_change_type (o n : Schema) (c : Change)
    (hc : c ∈ nowRequiredChanges o n) : c.change_type = "field_now_required" := by
  obtain ⟨f, hf, hfc⟩ := List.mem_map.mp hc
  rw [← hfc]

/-- Every change of the no-longer-required segment is a
`field_no_longer_required` change. -/
theorem noLongerRequiredChanges_change_type (o n : Schema) (c : Change)
    (hc : c ∈ noLongerRequiredChanges o n) : c.change_type = "field_no_longer_required" := by
  obtain ⟨f, hf, hfc⟩ := List.mem_map.mp hc
  rw [← hfc]

/-- Filtering `compare_schemas` output for one of the five segment change
types keeps exactly that segment. -/
theorem compare_filter_added (o n : Schema) :
    (compare_schemas o n).filter (fun c => decide (c.change_type = "property_added")) =
      addedChanges o n := by
  rw [compare_schemas_segments, List.filter_append, List.filter_append, List.filter_append,
    List.filter_append]
  rw [List.filter_eq_self.mpr (fun c hc => by simp [addedChanges_change_type o n c hc])]
  rw [List.filter_eq_nil_iff.mpr (fun c hc => by simp [removedChanges_change_type o n c hc])]
  rw [List.filter_eq_nil_iff.mpr (fun c hc => by
    rcases modifiedChanges_change_type o n c hc with h | h | h | h <;> simp [h])]
  rw [List.filter_eq_nil_iff.mpr (fun c hc => by simp [nowRequiredChanges_change_type o n c hc])]
  rw [List.filter_eq_nil_iff.mpr (fun c hc => by
    simp [noLongerRequiredChanges_change_type o n c hc])]
  simp

/-- Filtering `compare_schemas` output for `property_removed` keeps exactly
the removals segment. -/
theorem compare_filter_removed (o n : Schema) :
    (compare_schemas o n).filter (fun c => decide (c.change_type = "property_removed")) =
      removedChanges o n := by
  rw [compare_schemas_segments, List.filter_append, List.filter_append, List.filter_append,
    List.filter_append]
  rw [List.filter_eq_nil_iff.mpr (fun c hc => by simp [addedChanges_change_type o n c hc])]
  rw [List.filter_eq_self.mpr (fun c hc => by simp [removedChanges_change_type o n c hc])]
  rw [List.filter_eq_nil_iff.mpr (fun c hc => by
    rcases modifiedChanges_change_type o n c hc with h | h | h | h <;> simp [h])]
  rw [List.filter_eq_nil_iff.mpr (fun c hc => by simp [nowRequiredChanges_change_type o n c hc])]
  rw [List.filter_eq_nil_iff.mpr (fun c hc => by
    simp [noLongerRequiredChanges_change_type o n c hc])]
  simp

/-- Filtering `compare_schemas` output for `field_now_required` keeps
exactly the newly-required segment. -/
theorem compare_filter_nowRequired (o n : Schema) :
    (compare_schemas o n).filter (fun c => decide (c.change_type = "field_now_required")) =
      nowRequiredChanges o n := by
  rw [compare_schemas_segments, List.filter_append, List.filter_append, List.filter_append,
    List.filter_append]
  rw [List.filter_eq_nil_iff.mpr (fun c hc => by simp [addedChanges_change_type o n c hc])]
  rw [List.filter_eq_nil_iff.mpr (fun c hc => by simp [removedChanges_change_type o n c hc])]
  rw [List.filter_eq_nil_iff.mpr (fun c hc => by
    rcases modifiedChanges_change_type o n c hc with h | h | h | h <;> simp [h])]
  rw [List.filter_eq_self.mpr (fun c hc => by simp [nowRequiredChanges_change_type o n c hc])]
  rw [List.filter_eq_nil_iff.mpr (fun c hc => by
    simp [noLongerRequiredChanges_change_type o n c hc])]
  simp

/-- Filtering `compare_schemas` output for `field_no_longer_required` keeps
exactly the no-longer-required segment. -/
theorem compare_filter_noLongerRequired (o n : Schema) :
    (compare_schemas o n).filter
        (fun c => decide (c.change_type = "field_no_longer_required")) =
      noLongerRequiredChanges o n := by
  rw [compare_schemas_segments, List.filter_append, List.filter_append, List.filter_append,
    List.filter_append]
  rw [List.filter_eq_nil_iff.mpr (fun c hc => by simp [addedChanges_change_type o n c hc])]
  rw [List.filter_eq_nil_iff.mpr (fun c hc => by simp [removedChanges_change_type o n c hc])]
  rw [List.filter_eq_nil_iff.mpr (fun c hc => by
    rcases modifiedChanges_change_type o n c hc with h | h | h | h <;> simp [h])]
  rw [List.filter_eq_nil_iff.mpr (fun c hc => by simp [nowRequiredChanges_change_type o n c hc])]
  rw [List.filter_eq_self.mpr (fun c hc => by
    simp [noLongerRequiredChanges_change_type o n c hc])]
  simp

/-- Names of the additions segment: the new-document property names absent
from the old document. -/
theorem addedNames_eq (o n : Schema) :
    (addedChanges o n).map (fun c => c.field_path.drop 11) =
      (n.properties.map Prod.fst).filter
        (fun k => decide (k ∉ o.properties.map Prod.fst)) := by
  rw [addedChanges]
  induction n.properties with
  | nil => rfl
  | cons p rest ih =>
    by_cases h : p.1 ∈ o.properties.map Prod.fst
    · simpa [h] using ih
    · simpa [h, drop_properties_path] using ih

/-- Names of the removals segment: the old-document property names absent
from the new document. -/
theorem removedNames_eq (o n : Schema) :
    (removedChanges o n).map (fun c => c.field_path.drop 11) =
      (o.properties.map Prod.fst).filter
        (fun k => decide (k ∉ n.properties.map Prod.fst)) := by
  rw [removedChanges]
  induction o.properties with
  | nil => rfl
  | cons p rest ih =>
    by_cases h : p.1 ∈ n.properties.map Prod.fst
    · simpa [h] using ih
    · simpa [h, drop_properties_path] using ih

/-- Names of the newly-required segment. -/
theorem nowRequiredNames_eq (o n : Schema) :
    (nowRequiredChanges o n).map (fun c => c.field_path.drop 9) =
      n.required.dedup.filter (fun f => decide (f ∉ o.required)) := by
  rw [nowRequiredChanges]
  induction n.required.dedup with
  | nil => rfl
  | cons f rest ih =>
    by_cases h : f ∈ o.required
    · simpa [h] using ih
    · simpa [h, drop_required_path] using ih

/-- Names of the no-longer-required segment. -/
theorem noLongerRequiredNames_eq (o n : Schema) :
    (noLongerRequiredChanges o n).map (fun c => c.field_path.drop 9) =
      o.required.dedup.filter (fun f => decide (f ∉ n.required)) := by
  rw [noLongerRequiredChanges]
  induction o.required.dedup with
  | nil => rfl
  | cons f rest ih =>
    by_cases h : f ∈ n.required
    · simpa [h] using ih
    · simpa [h, drop_required_path] using ih

/-- The `property_added` names of a full diff. -/
theorem addedPropNames_compare (o n : Schema) :
    addedPropNames (compare_schemas o n) =
      (n.properties.map Prod.fst).filter
        (fun k => decide (k ∉ o.properties.map Prod.fst)) := by
  unfold addedPropNames
  rw [compare_filter_added]
  exact addedNames_eq o n

/-- The `property_removed` names of a full diff. -/
theorem removedPropNames_compare (o n : Schema) :
    removedPropNames (compare_schemas o n) =
      (o.properties.map Prod.fst).filter
        (fun k => decide (k ∉ n.properties.map Prod.fst)) := by
  unfold removedPropNames
  rw [compare_filter_removed]
  exact removedNames_eq o n

/-- The `field_now_required` names of a full diff. -/
theorem nowRequiredNames_compare (o n : Schema) :
    nowRequiredNames (compare_schemas o n) =
      n.required.dedup.filter (fun f => decide (f ∉ o.required)) := by
  unfold nowRequiredNames
  rw [compare_filter_nowRequired]
  exact nowRequiredNames_eq o n

/-- The `field_no_longer_required` names of a full diff. -/
theorem noLongerRequiredNames_compare (o n : Schema) :
    noLongerRequiredNames (compare_schemas o n) =
      o.required.dedup.filter (fun f => decide (f ∉ n.required)) := by
  unfold noLongerRequiredNames
  rw [compare_filter_noLongerRequired]
  exact noLongerRequiredNames_eq o n

/-- C6: applying the structural changes emitted by `compare_schemas` to the
old document's property-name set and required set — inserting the names of
`property_added` changes, deleting the names of `property_removed` changes,
inserting the names of `field_now_required` changes into the required set
and deleting the names of `field_no_longer_required` changes from it —
reconstructs exactly the new document's property-name set and required
set. -/
theorem compare_schemas_roundtrip (old_schema new_schema : Schema) :
    (((old_schema.properties.map Prod.fst).toFinset ∪
        (addedPropNames (compare_schemas old_schema new_schema)).toFinset) \
      (removedPropNames (compare_schemas old_schema new_schema)).toFinset =
      (new_schema.properties.map Prod.fst).toFinset) ∧
    ((old_schema.required.toFinset ∪
        (nowRequiredNames (compare_schemas old_schema new_schema)).toFinset) \
      (noLongerRequiredNames (compare_schemas old_schema new_schema)).toFinset =
      new_schema.required.toFinset) := by
  constructor
  · rw [addedPropNames_compare, removedPropNames_compare]
    ext x
    simp only [Finset.mem_sdiff, Finset.mem_union, List.mem_toFinset, List.mem_filter,
      decide_eq_true_eq]
    by_cases hx : x ∈ new_schema.properties.map Prod.fst <;>
      by_cases hy : x ∈ old_schema.properties.map Prod.fst <;> simp [hx, hy]
  · rw [nowRequiredNames_compare, noLongerRequiredNames_compare]
    ext x
    simp only [Finset.mem_sdiff, Finset.mem_union, List.mem_toFinset, List.mem_filter,
      List.mem_dedup, decide_eq_true_eq]
    by_cases hx : x ∈ new_schema.required <;> by_cases hy : x ∈ old_schema.required <;>
      simp [hx, hy]

-- ======================================================================
-- C3, C5, C4, C2, C1: orchestrator claims
-- ======================================================================

/-- C3: a monitoring cycle for a tier with no prior snapshot (fetch
succeeding, commits succeeding) completes without error, persists the
fetched document as the first snapshot for the key, and reports a change
count of zero with an empty change list. -/
theorem monitor_tier_first_snapshot (env : Env) (spec_type : String) (db : DB) (s : Schema)
    (hfetch : env.fetch spec_type = Except.ok s)
    (hnone : get_latest_snapshot db spec_type = none) :
    monitor_tier env spec_type db [] =
      (Except.ok { spec_type := spec_type, snapshot_id := db.nextId,
                   changes_count := 0, changes := [] },
       { snapshots := db.snapshots ++
           [{ id := db.nextId, gateway := "stripe",
              endpoint_path := "/v1/payment_intents", spec_type := spec_type,
              spec_url := SPEC_URLS spec_type, schema_data := s }],
         changes := db.changes, nextId := db.nextId + 1 }, ([] : List Bool)) := by
  simp [monitor_tier, hfetch, hnone, commitStep]

/-- Witness for C3 at a concrete environment and the empty store. -/
theorem monitor_tier_first_snapshot_witness :
    monitor_tier envFetchB "preview" dbEmpty [] =
      (Except.ok { spec_type := "preview", snapshot_id := 0,
                   changes_count := 0, changes := [] },
       { snapshots := [{ id := 0, gateway := "stripe",
                         endpoint_path := "/v1/payment_intents", spec_type := "preview",
                         spec_url := SPEC_URLS "preview", schema_data := schemaB }],
         changes := [], nextId := 1 }, ([] : List Bool)) :=
  monitor_tier_first_snapshot envFetchB "preview" dbEmpty schemaB rfl rfl

/-- C5: a tier comparison with the latest snapshot of either tier missing
returns the structured insufficient-data result, and never an `ok` result
(in particular never an empty change list). -/
theorem compare_tiers_missing_snapshot (env : Env) (source_tier target_tier : String) (db : DB)
    (h : get_latest_snapshot db source_tier = none ∨
      get_latest_snapshot db target_tier = none) :
    compare_tiers env source_tier target_tier db =
        TierCompareResult.insufficientData "Missing snapshots for comparison" ∧
      ∀ label cnt chs, compare_tiers env source_tier target_tier db ≠
        TierCompareResult.ok label cnt chs := by
  have heq : compare_tiers env source_tier target_tier db =
      TierCompareResult.insufficientData "Missing snapshots for comparison" := by
    rcases hs : get_latest_snapshot db source_tier with _ | ss <;>
      rcases ht : get_latest_snapshot db target_tier with _ | ts <;>
      simp_all [compare_tiers]
  refine ⟨heq, ?_⟩
  intro label cnt chs hcontra
  rw [heq] at hcontra
  exact TierCompareResult.noConfusion hcontra

/-- Witness for C5 at the empty store. -/
theorem compare_tiers_missing_snapshot_witness :
    (get_latest_snapshot dbEmpty "preview" = none ∨
        get_latest_snapshot dbEmpty "stable" = none) ∧
      (compare_tiers envPure "preview" "stable" dbEmpty =
          TierCompareResult.insufficientData "Missing snapshots for comparison" ∧
        ∀ label cnt chs, compare_tiers envPure "preview" "stable" dbEmpty ≠
          TierCompareResult.ok label cnt chs) :=
  ⟨Or.inl rfl,
   compare_tiers_missing_snapshot envPure "preview" "stable" dbEmpty (Or.inl rfl)⟩

/-- C4 counterexample: a beta-vs-stable comparison annotates its changes
with the timeline string `"Unknown"` (capitalized), not the literal
`"unknown"` stated by the claim. -/
theorem compare_tiers_timeline_cex :
    compare_tiers envPure "beta" "stable" dbTwo =
        TierCompareResult.ok "beta_vs_stable" 1
          [{ change := { change_type := "property_added",
                         field_path := "properties.customer",
                         old_value := JValue.null, new_value := JValue.propDef fieldStr,
                         severity := "low" },
             maturity := "new_beta", ai_summary := none, timeline := "Unknown" }] ∧
      "Unknown" ≠ "unknown" := by decide

/-- C4 (amended): with both latest snapshots present, the comparator runs
the differ with the target tier's document as `old` and the source tier's
document as `new`, and annotates every change with maturity `new_preview`
for a preview source and `new_beta` otherwise, and with the fixed advisory
timeline `"4-10 weeks"` for a preview source and `"Unknown"` otherwise. -/
theorem compare_tiers_both_present (env : Env) (source_tier target_tier : String) (db : DB)
    (ss ts : SnapshotRec)
    (hs : get_latest_snapshot db source_tier = some ss)
    (ht : get_latest_snapshot db target_tier = some ts) :
    compare_tiers env source_tier target_tier db =
      TierCompareResult.ok (source_tier ++ "_vs_" ++ target_tier)
        (compare_schemas ts.schema_data ss.schema_data).length
        ((compare_schemas ts.schema_data ss.schema_data).map (fun cd =>
          { change := cd,
            maturity := if source_tier = "preview" then "new_preview" else "new_beta",
            ai_summary := env.summarize cd,
            timeline := if source_tier = "preview" then "4-10 weeks" else "Unknown" })) := by
  simp [compare_tiers, hs, ht]

/-- Witness for the amended C4 at a concrete store. -/
theorem compare_tiers_both_present_witness :
    compare_tiers envPure "beta" "stable" dbTwo =
      TierCompareResult.ok ("beta" ++ "_vs_" ++ "stable")
        (compare_schemas snapStable.schema_data snapBeta.schema_data).length
        ((compare_schemas snapStable.schema_data snapBeta.schema_data).map (fun cd =>
          { change := cd,
            maturity := if "beta" = "preview" then "new_preview" else "new_beta",
            ai_summary := envPure.summarize cd,
            timeline := if "beta" = "preview" then "4-10 weeks" else "Unknown" })) :=
  compare_tiers_both_present envPure "beta" "stable" dbTwo snapBeta snapStable
    (by decide) (by decide)

/-- C2 counterexample: with the stable-tier fetch failing and the sibling
fetches succeeding, the whole multi-tier run returns a single error, no
per-tier results, and persists nothing — the sibling tiers' cycles never
execute. -/
theorem run_monitoring_no_isolation_cex :
    run_monitoring envStableDown dbEmpty [] =
        (Except.error (MErr.fetchFailed "stable" "boom"), dbEmpty, ([] : List Bool)) ∧
      envStableDown.fetch "preview" = Except.ok schemaA ∧
      (run_monitoring envStableDown dbEmpty []).2.1.snapshots = [] :=
  ⟨rfl, rfl, rfl⟩

/-- Fetch failure of a tier turns its whole cycle into that fetch error,
with the store and commit oracle untouched. -/
theorem monitor_tier_fetch_error_eq (env : Env) (t : String) (db : DB) (o : List Bool)
    (msg : String) (h : env.fetch t = Except.error msg) :
    monitor_tier env t db o = (Except.error (MErr.fetchFailed t msg), db, o) := by
  simp [monitor_tier, h]

/-- C2 (amended): a fetch failure in any tier's cycle propagates out of
`run_monitoring` and aborts the entire multi-tier run without retry: the
run returns an error rather than per-tier results; and whichever tier
fails, its fetch error is returned verbatim with the store and commit
oracle exactly as the preceding tiers' cycles (if any) left them — the
tiers after the failing one in the fixed order stable, preview, beta never
execute, and a stable-tier failure leaves the store untouched. -/
theorem run_monitoring_fetch_failure_aborts (env : Env) (db : DB) (oracle : List Bool)
    (msg tier : String)
    (htier : tier = "stable" ∨ tier = "preview" ∨ tier = "beta")
    (hfail : env.fetch tier = Except.error msg) :
    (∃ e, (run_monitoring env db oracle).1 = Except.error e) ∧
      (tier = "stable" →
        run_monitoring env db oracle =
          (Except.error (MErr.fetchFailed "stable" msg), db, oracle)) ∧
      (∀ res1 db1 o1, tier = "preview" →
        monitor_tier env "stable" db oracle = (Except.ok res1, db1, o1) →
        run_monitoring env db oracle =
          (Except.error (MErr.fetchFailed "preview" msg), db1, o1)) ∧
      (∀ res1 db1 o1 res2 db2 o2, tier = "beta" →
        monitor_tier env "stable" db oracle = (Except.ok res1, db1, o1) →
        monitor_tier env "preview" db1 o1 = (Except.ok res2, db2, o2) →
        run_monitoring env db oracle =
          (Except.error (MErr.fetchFailed "beta" msg), db2, o2)) := by
  have hstable : tier = "stable" →
      run_monitoring env db oracle =
        (Except.error (MErr.fetchFailed "stable" msg), db, oracle) := by
    intro ht
    subst ht
    simp [run_monitoring, monitor_tier_fetch_error_eq env "stable" db oracle msg hfail]
  have hpreview : ∀ res1 db1 o1, tier = "preview" →
      monitor_tier env "stable" db oracle = (Except.ok res1, db1, o1) →
      run_monitoring env db oracle =
        (Except.error (MErr.fetchFailed "preview" msg), db1, o1) := by
    intro res1 db1 o1 ht h1
    subst ht
    simp [run_monitoring, h1, monitor_tier_fetch_error_eq env "preview" db1 o1 msg hfail]
  have hbeta : ∀ res1 db1 o1 res2 db2 o2, tier = "beta" →
      monitor_tier env "stable" db oracle = (Except.ok res1, db1, o1) →
      monitor_tier env "preview" db1 o1 = (Except.ok res2, db2, o2) →
      run_monitoring env db oracle =
        (Except.error (MErr.fetchFailed "beta" msg), db2, o2) := by
    intro res1 db1 o1 res2 db2 o2 ht h1 h2
    subst ht
    simp [run_monitoring, h1, h2,
      monitor_tier_fetch_error_eq env "beta" db2 o2 msg hfail]
  refine ⟨?_, hstable, hpreview, hbeta⟩
  rcases htier with ht | ht | ht
  · exact ⟨MErr.fetchFailed "stable" msg, by rw [hstable ht]⟩
  · rcases h1 : monitor_tier env "stable" db oracle with ⟨r1, db1, o1⟩
    rcases r1 with e | res1
    · exact ⟨e, by simp [run_monitoring, h1]⟩
    · exact ⟨MErr.fetchFailed "preview" msg, by rw [hpreview res1 db1 o1 ht h1]⟩
  · rcases h1 : monitor_tier env "stable" db oracle with ⟨r1, db1, o1⟩
    rcases r1 with e | res1
    · exact ⟨e, by simp [run_monitoring, h1]⟩
    · rcases h2 : monitor_tier env "preview" db1 o1 with ⟨r2, db2, o2⟩
      rcases r2 with e | res2
      · exact ⟨e, by simp [run_monitoring, h1, h2]⟩
      · exact ⟨MErr.fetchFailed "beta" msg,
          by rw [hbeta res1 db1 o1 res2 db2 o2 ht h1 h2]⟩

/-- Witness for the amended C2 at a concrete environment whose preview-tier
fetch fails. -/
theorem run_monitoring_fetch_failure_aborts_witness :
    (∃ e, (run_monitoring envPreviewDown dbEmpty []).1 = Except.error e) ∧
      ("preview" = "stable" →
        run_monitoring envPreviewDown dbEmpty [] =
          (Except.error (MErr.fetchFailed "stable" "boom"), dbEmpty, ([] : List Bool))) ∧
      (∀ res1 db1 o1, "preview" = "preview" →
        monitor_tier envPreviewDown "stable" dbEmpty [] = (Except.ok res1, db1, o1) →
        run_monitoring envPreviewDown dbEmpty [] =
          (Except.error (MErr.fetchFailed "preview" "boom"), db1, o1)) ∧
      (∀ res1 db1 o1 res2 db2 o2, "preview" = "beta" →
        monitor_tier envPreviewDown "stable" dbEmpty [] = (Except.ok res1, db1, o1) →
        monitor_tier envPreviewDown "preview" db1 o1 = (Except.ok res2, db2, o2) →
        run_monitoring envPreviewDown dbEmpty [] =
          (Except.error (MErr.fetchFailed "beta" "boom"), db2, o2)) :=
  run_monitoring_fetch_failure_aborts envPreviewDown dbEmpty [] "boom" "preview"
    (Or.inr (Or.inl rfl)) rfl

/-- C1 counterexample: a cycle that detects changes, commits its snapshot,
and then fails the change-commit reports failure but leaves the snapshot
persisted with none of its changes. -/
theorem monitor_tier_lost_changes_cex :
    monitor_tier envFetchB "stable" dbOne [true, false] =
        (Except.error MErr.commitFailed,
         { snapshots := [snapStable,
             { id := 1, gateway := "stripe", endpoint_path := "/v1/payment_intents",
               spec_type := "stable", spec_url := SPEC_URLS "stable",
               schema_data := schemaB }],
           changes := [], nextId := 2 }, ([] : List Bool)) ∧
      compare_schemas snapStable.schema_data schemaB ≠ [] :=
  ⟨rfl, by decide⟩

/-- C1 (amended): every cycle preserves the no-orphan invariant (a
persisted Change always has its parent Snapshot persisted); a successful
cycle persists the new snapshot and the full change row of every detected
change; a failed cycle persists none of the cycle's change rows — though,
the snapshot being committed first, it may remain persisted with its
changes lost, as the counterexample shows. -/
theorem monitor_tier_persistence (env : Env) (spec_type : String) (db : DB)
    (oracle : List Bool)
    (hwf : ∀ c ∈ db.changes, ∃ s ∈ db.snapshots, s.id = c.snapshot_id) :
    (∀ c ∈ (monitor_tier env spec_type db oracle).2.1.changes,
        ∃ s ∈ (monitor_tier env spec_type db oracle).2.1.snapshots,
          s.id = c.snapshot_id) ∧
      (∀ res, (monitor_tier env spec_type db oracle).1 = Except.ok res →
        (∃ s ∈ (monitor_tier env spec_type db oracle).2.1.snapshots,
            s.id = res.snapshot_id) ∧
          ∀ cd ∈ res.changes,
            mkChangeRec env spec_type res.snapshot_id cd ∈
              (monitor_tier env spec_type db oracle).2.1.changes) ∧
      (∀ e, (monitor_tier env spec_type db oracle).1 = Except.error e →
        (monitor_tier env spec_type db oracle).2.1.changes = db.changes) := by
  rcases hf : env.fetch spec_type with e | cur
  · have hmt : monitor_tier env spec_type db oracle =
        (Except.error (MErr.fetchFailed spec_type e), db, oracle) := by
      simp [monitor_tier, hf]
    rw [hmt]
    exact ⟨hwf, fun res hres => absurd hres (by simp), fun e' he' => rfl⟩
  · by_cases h1 : oracle.head?.getD true = false
    · have hmt : monitor_tier env spec_type db oracle =
          (Except.error MErr.commitFailed, db, oracle.tail) := by
        simp [monitor_tier, hf, commitStep, h1]
      rw [hmt]
      exact ⟨hwf, fun res hres => absurd hres (by simp), fun e' he' => rfl⟩
    · rcases hp : get_latest_snapshot db spec_type with _ | prev
      · have hmt : monitor_tier env spec_type db oracle =
            (Except.ok { spec_type := spec_type, snapshot_id := db.nextId,
                         changes_count := 0, changes := [] },
             { snapshots := db.snapshots ++
                 [{ id := db.nextId, gateway := "stripe",
                    endpoint_path := "/v1/payment_intents", spec_type := spec_type,
                    spec_url := SPEC_URLS spec_type, schema_data := cur }],
               changes := db.changes, nextId := db.nextId + 1 }, oracle.tail) := by
          simp [monitor_tier, hf, hp, commitStep, h1]
        rw [hmt]
        refine ⟨?_, ?_, fun e' he' => absurd he' (by simp)⟩
        · intro c hc
          obtain ⟨s, hs, hsid⟩ := hwf c hc
          exact ⟨s, List.mem_append_left _ hs, hsid⟩
        · intro res hres
          have hr := Except.ok.inj hres
          subst hr
          refine ⟨⟨_, List.mem_append_right _ (List.mem_singleton_self _), rfl⟩, ?_⟩
          intro cd hcd
          simp at hcd
      · by_cases h2 : oracle[1]?.getD true = false
        · have hmt : monitor_tier env spec_type db oracle =
              (Except.error MErr.commitFailed,
               { snapshots := db.snapshots ++
                   [{ id := db.nextId, gateway := "stripe",
                      endpoint_path := "/v1/payment_intents", spec_type := spec_type,
                      spec_url := SPEC_URLS spec_type, schema_data := cur }],
                 changes := db.changes, nextId := db.nextId + 1 },
               oracle.tail.tail) := by
            simp [monitor_tier, hf, hp, commitStep, h1, h2]
          rw [hmt]
          refine ⟨?_, fun res hres => absurd hres (by simp), fun e' he' => rfl⟩
          intro c hc
          obtain ⟨s, hs, hsid⟩ := hwf c hc
          exact ⟨s, List.mem_append_left _ hs, hsid⟩
        · have hmt : monitor_tier env spec_type db oracle =
              (Except.ok { spec_type := spec_type, snapshot_id := db.nextId,
                           changes_count := (compare_schemas prev.schema_data cur).length,
                           changes := compare_schemas prev.schema_data cur },
               { snapshots := db.snapshots ++
                   [{ id := db.nextId, gateway := "stripe",
                      endpoint_path := "/v1/payment_intents", spec_type := spec_type,
                      spec_url := SPEC_URLS spec_type, schema_data := cur }],
                 changes := db.changes ++
                   (compare_schemas prev.schema_data cur).map
                     (mkChangeRec env spec_type db.nextId),
                 nextId := db.nextId + 1 },
               oracle.tail.tail) := by
            simp [monitor_tier, hf, hp, commitStep, h1, h2]
          rw [hmt]
          refine ⟨?_, ?_, fun e' he' => absurd he' (by simp)⟩
          · intro c hc
            rcases List.mem_append.mp hc with hc | hc
            · obtain ⟨s, hs, hsid⟩ := hwf c hc
              exact ⟨s, List.mem_append_left _ hs, hsid⟩
            · obtain ⟨cd, hcd, hcdc⟩ := List.mem_map.mp hc
              refine ⟨_, List.mem_append_right _ (List.mem_singleton_self _), ?_⟩
              rw [← hcdc]
              rfl
          · intro res hres
            have hr := Except.ok.inj hres
            subst hr
            refine ⟨⟨_, List.mem_append_right _ (List.mem_singleton_self _), rfl⟩, ?_⟩
            intro cd hcd
            exact List.mem_append_right _ (List.mem_map_of_mem _ hcd)

/-- Witness for the amended C1 at a concrete cycle. -/
theorem monitor_tier_persistence_witness :
    (∀ c ∈ dbOne.changes, ∃ s ∈ dbOne.snapshots, s.id = c.snapshot_id) ∧
      ((∀ c ∈ (monitor_tier envFetchB "stable" dbOne []).2.1.changes,
          ∃ s ∈ (monitor_tier envFetchB "stable" dbOne []).2.1.snapshots,
            s.id = c.snapshot_id) ∧
        (∀ res, (monitor_tier envFetchB "stable" dbOne []).1 = Except.ok res →
          (∃ s ∈ (monitor_tier envFetchB "stable" dbOne []).2.1.snapshots,
              s.id = res.snapshot_id) ∧
            ∀ cd ∈ res.changes,
              mkChangeRec envFetchB "stable" res.snapshot_id cd ∈
                (monitor_tier envFetchB "stable" dbOne []).2.1.changes) ∧
        (∀ e, (monitor_tier envFetchB "stable" dbOne []).1 = Except.error e →
          (monitor_tier envFetchB "stable" dbOne []).2.1.changes = dbOne.changes)) :=
  ⟨by simp [dbOne],
   monitor_tier_persistence envFetchB "stable" dbOne [] (by simp [dbOne])⟩
